import Mathlib

set_option maxRecDepth 8000

/-!
Verification development for the discogs-xml-to-parquet converter
(`src/main.rs`).  The converter streams a gzip-compressed XML dump of
release records and writes them to a Parquet file through Arrow array
builders.  This file gives a shallow embedding of the token-level parser,
the column batch writer, and the driving loop of `main`, and proves the
specification claims about them.

Modelling conventions:
  * the token source (`EventReader` over quick_xml) is a `List Event`;
    reading past the end of the list corresponds to quick_xml returning
    `Event::Eof`, so each parser's `[]` case produces exactly the error
    the Rust code produces when handed an `Eof` event; quick_xml's
    remaining event kinds (declaration, comment, CData, processing
    instruction) are omitted from the `Event` type — every combinator of
    the source treats them exactly like any other non-matching token, so
    they behave like the constructors already present;
  * loops are given explicit `fuel`; every call site passes
    `length of remaining input + 1`, which is always sufficient because
    each loop iteration consumes at least one token, so the `truncated`
    out-of-fuel result is never reached from `runMain`.  The one real use
    of `truncated` is the pure skip loops (`skipPast`), which in Rust
    would spin on a truncated stream that keeps yielding `Eof`;
  * `panic!` / `.unwrap()` failures abort the Rust process; they are
    modelled by the error value `ProcessingError.panicked`;
  * machine integers: release ids are `u32`, modelled as `Nat` with the
    explicit bound `2 ^ 32` at the single point (`str::parse::<u32>`)
    where overflow aborts.
-/

deriving instance DecidableEq for Except

namespace Discogs

/-- XML events as surfaced by the streaming reader (quick_xml `Event`).
Start and self-closing (`empty`) tags carry the element name and the
attribute key/value pairs; `text` carries raw, still-escaped character
data (the code never calls `unescape`); `eof` is end of input. -/
inductive Event where
  | start (name : String) (attrs : List (String × String))
  | end_ (name : String)
  | empty (name : String) (attrs : List (String × String))
  | text (s : String)
  | eof
  deriving DecidableEq, Repr

/-- Error type of the converter (`ProcessingError` in the source).
The IO and XML-parse variants carry opaque external errors and cannot
arise in this embedding; `panicked` models the `panic!`/`unwrap` aborts
in the source; `truncated` models a skip loop running off the end of the
token stream (see the module comment). -/
inductive ProcessingError where
  | expectedStart
  | expectedStartOf (name : String)
  | expectedEndOf (name : String)
  | expectedEmpty (name : String)
  | expectedText
  | expectedNewline
  | expectedEof
  | panicked
  | truncated
  deriving DecidableEq, Repr

/-- Combinator `EventExt::expect_start_of`: the event must be a start tag
with exactly the given name. -/
def Event.expect_start_of (e : Event) (name : String) :
    Except ProcessingError (String × List (String × String)) :=
  match e with
  | .start n attrs => if n = name then .ok (n, attrs) else .error (.expectedStartOf name)
  | _ => .error (.expectedStartOf name)

/-- Combinator `EventExt::expect_start`: any start tag. -/
def Event.expect_start (e : Event) :
    Except ProcessingError (String × List (String × String)) :=
  match e with
  | .start n attrs => .ok (n, attrs)
  | _ => .error .expectedStart

/-- Combinator `EventExt::expect_end_of`. -/
def Event.expect_end_of (e : Event) (name : String) : Except ProcessingError Unit :=
  match e with
  | .end_ n => if n = name then .ok () else .error (.expectedEndOf name)
  | _ => .error (.expectedEndOf name)

/-- Combinator `EventExt::expect_empty`: a self-closing tag of the given
name. -/
def Event.expect_empty (e : Event) (name : String) :
    Except ProcessingError (String × List (String × String)) :=
  match e with
  | .empty n attrs => if n = name then .ok (n, attrs) else .error (.expectedEmpty name)
  | _ => .error (.expectedEmpty name)

/-- Combinator `EventExt::expect_new_line`: a text token whose content is
exactly one newline character. -/
def Event.expect_new_line (e : Event) : Except ProcessingError Unit :=
  match e with
  | .text s => if s = "\n" then .ok () else .error .expectedNewline
  | _ => .error .expectedNewline

/-- Combinator `EventExt::expect_text`. -/
def Event.expect_text (e : Event) : Except ProcessingError String :=
  match e with
  | .text s => .ok s
  | _ => .error .expectedText

/-- Combinator `EventExt::expect_eof`. -/
def Event.expect_eof (e : Event) : Except ProcessingError Unit :=
  match e with
  | .eof => .ok ()
  | _ => .error .expectedEof

/-- Predicate `EventExt::is_end_of`: an end tag with the given name. -/
def Event.is_end_of (e : Event) (name : String) : Bool :=
  match e with
  | .end_ n => n = name
  | _ => false

/-- Predicate `EventExt::is_empty_tag`. -/
def Event.is_empty_tag (e : Event) : Bool :=
  match e with
  | .empty _ _ => true
  | _ => false

/-- The five-character pattern of an escaped ampersand. -/
def ampPattern : List Char := ['&', 'a', 'm', 'p', ';']

/-- Model of Rust `str::replace("&amp;", "&")` on the character list of a
string: scan left to right; at each position where the next five
characters are the pattern, emit a single ampersand and continue after
the match (matches are non-overlapping), otherwise copy the character.
The `fuel` argument only bounds the recursion; every step consumes at
least one character, so any fuel of at least the list's length (the
caller passes exactly that) computes the full replacement, and when the
fuel runs out the remaining characters are returned unchanged. -/
def replaceAmpAux : Nat → List Char → List Char
  | 0, l => l
  | _ + 1, [] => []
  | fuel + 1, c :: rest =>
    if (c :: rest).take 5 = ampPattern then '&' :: replaceAmpAux fuel ((c :: rest).drop 5)
    else c :: replaceAmpAux fuel rest

/-- The `genre.replace("&amp;", "&")` / `style.replace("&amp;", "&")`
operation of `parse_genres` / `parse_styles`, lifted to `String`. -/
def replaceAmp (s : String) : String :=
  ⟨replaceAmpAux s.data.length s.data⟩

/-- Whether the five-character sequence of an escaped ampersand occurs
anywhere in a character list (used to state when the unescaping is a
no-op). -/
def containsAmpChars : List Char → Bool
  | [] => false
  | c :: rest => decide ((c :: rest).take 5 = ampPattern) || containsAmpChars rest

/-- The fixed batch threshold `BATCH_SIZE` of the source. -/
def BATCH_SIZE : Nat := 10000

/-- Model of `ReleaseBatchWriter`.  The Arrow builders are modelled
column by column:
  * `ids`, `statuses`, `titles` — the scalar builders (`UInt32Builder`,
    `StringDictionaryBuilder`, `StringBuilder`), as the list of values
    appended since the last flush;
  * `artistIds`/`artistNames`/`artistAnvs`/`artistJoins` — the four
    field builders of the artist `StructBuilder` (`anv`/`join` are
    nullable, hence `Option`); `artistItems` counts the struct's
    per-item `append(true)` calls and `artistRows` the artist
    `ListBuilder`'s per-record `append(true)` calls;
  * `genres`/`styles` with `genreRows`/`styleRows`, and the label
    builders with `labelItems`/`labelRows`, likewise;
  * `flushedBatches` records the row count of every `RecordBatch`
    actually written, in order, and the `written…` counters the total
    rows per column handed to the `ArrowWriter` so far;
  * `releasesWritten` is a ghost counter of `write_release` calls (the
    record count), used only in specifications;
  * `closeCount` counts invocations of `ArrowWriter::close` (the footer
    write). -/
structure ReleaseBatchWriter where
  pending : Nat
  ids : List Nat
  statuses : List String
  titles : List String
  artistIds : List String
  artistNames : List String
  artistAnvs : List (Option String)
  artistJoins : List (Option String)
  artistItems : Nat
  artistRows : Nat
  genres : List String
  genreRows : Nat
  styles : List String
  styleRows : Nat
  labelIds : List String
  labelCatNos : List String
  labelNames : List String
  labelItems : Nat
  labelRows : Nat
  flushedBatches : List Nat
  writtenIds : Nat
  writtenStatuses : Nat
  writtenTitles : Nat
  writtenArtistRows : Nat
  writtenGenreRows : Nat
  writtenStyleRows : Nat
  writtenLabelRows : Nat
  releasesWritten : Nat
  closeCount : Nat
  deriving DecidableEq, Repr

/-- The freshly constructed writer (`ReleaseBatchWriter::new`): every
builder empty, nothing pending, nothing written. -/
def ReleaseBatchWriter.new : ReleaseBatchWriter :=
  { pending := 0, ids := [], statuses := [], titles := [],
    artistIds := [], artistNames := [], artistAnvs := [], artistJoins := [],
    artistItems := 0, artistRows := 0, genres := [], genreRows := 0,
    styles := [], styleRows := 0, labelIds := [], labelCatNos := [],
    labelNames := [], labelItems := 0, labelRows := 0,
    flushedBatches := [], writtenIds := 0, writtenStatuses := 0,
    writtenTitles := 0, writtenArtistRows := 0, writtenGenreRows := 0,
    writtenStyleRows := 0, writtenLabelRows := 0, releasesWritten := 0,
    closeCount := 0 }

def ReleaseBatchWriter.push_id (w : ReleaseBatchWriter) (id : Nat) : ReleaseBatchWriter :=
  { w with ids := w.ids ++ [id] }

def ReleaseBatchWriter.push_status (w : ReleaseBatchWriter) (status : String) :
    ReleaseBatchWriter :=
  { w with statuses := w.statuses ++ [status] }

def ReleaseBatchWriter.push_title (w : ReleaseBatchWriter) (title : String) :
    ReleaseBatchWriter :=
  { w with titles := w.titles ++ [title] }

def ReleaseBatchWriter.push_artist_id (w : ReleaseBatchWriter) (id : String) :
    ReleaseBatchWriter :=
  { w with artistIds := w.artistIds ++ [id] }

def ReleaseBatchWriter.push_artist_name (w : ReleaseBatchWriter) (name : String) :
    ReleaseBatchWriter :=
  { w with artistNames := w.artistNames ++ [name] }

/-- Appends a present (non-null) artist name variation. -/
def ReleaseBatchWriter.push_artist_anv (w : ReleaseBatchWriter) (anv : String) :
    ReleaseBatchWriter :=
  { w with artistAnvs := w.artistAnvs ++ [some anv] }

/-- Appends an explicit null artist name variation (`append_null`). -/
def ReleaseBatchWriter.push_artist_anv_null (w : ReleaseBatchWriter) : ReleaseBatchWriter :=
  { w with artistAnvs := w.artistAnvs ++ [none] }

def ReleaseBatchWriter.push_artist_join (w : ReleaseBatchWriter) (join : String) :
    ReleaseBatchWriter :=
  { w with artistJoins := w.artistJoins ++ [some join] }

def ReleaseBatchWriter.push_artist_join_null (w : ReleaseBatchWriter) : ReleaseBatchWriter :=
  { w with artistJoins := w.artistJoins ++ [none] }

/-- The per-item end marker of the artist struct builder
(`self.artists.values().append(true)`). -/
def ReleaseBatchWriter.push_end_of_artist (w : ReleaseBatchWriter) : ReleaseBatchWriter :=
  { w with artistItems := w.artistItems + 1 }

def ReleaseBatchWriter.push_genre (w : ReleaseBatchWriter) (genre : String) :
    ReleaseBatchWriter :=
  { w with genres := w.genres ++ [genre] }

def ReleaseBatchWriter.push_style (w : ReleaseBatchWriter) (style : String) :
    ReleaseBatchWriter :=
  { w with styles := w.styles ++ [style] }

def ReleaseBatchWriter.push_label_id (w : ReleaseBatchWriter) (id : String) :
    ReleaseBatchWriter :=
  { w with labelIds := w.labelIds ++ [id] }

def ReleaseBatchWriter.push_label_cat_no (w : ReleaseBatchWriter) (catNo : String) :
    ReleaseBatchWriter :=
  { w with labelCatNos := w.labelCatNos ++ [catNo] }

def ReleaseBatchWriter.push_label_name (w : ReleaseBatchWriter) (name : String) :
    ReleaseBatchWriter :=
  { w with labelNames := w.labelNames ++ [name] }

def ReleaseBatchWriter.push_end_of_label (w : ReleaseBatchWriter) : ReleaseBatchWriter :=
  { w with labelItems := w.labelItems + 1 }

/-- Model of `ReleaseBatchWriter::flush`.  When rows are pending the
source builds a `RecordBatch` from the finished arrays and unwraps it;
Arrow's `RecordBatch::try_new` is documented to fail unless all columns
have the same number of rows, so a length mismatch among the seven
top-level columns aborts the process (modelled as `panicked`).  On
success every builder is reset, the batch's row count is recorded, and
the per-column written totals advance.  With nothing pending, flush is a
no-op. -/
def ReleaseBatchWriter.flush (w : ReleaseBatchWriter) :
    Except ProcessingError ReleaseBatchWriter :=
  if w.pending > 0 then
    if w.ids.length = w.artistRows ∧ w.statuses.length = w.artistRows ∧
        w.titles.length = w.artistRows ∧ w.genreRows = w.artistRows ∧
        w.styleRows = w.artistRows ∧ w.labelRows = w.artistRows then
      .ok { pending := 0, ids := [], statuses := [], titles := [],
            artistIds := [], artistNames := [], artistAnvs := [], artistJoins := [],
            artistItems := 0, artistRows := 0, genres := [], genreRows := 0,
            styles := [], styleRows := 0, labelIds := [], labelCatNos := [],
            labelNames := [], labelItems := 0, labelRows := 0,
            flushedBatches := w.flushedBatches ++ [w.artistRows],
            writtenIds := w.writtenIds + w.ids.length,
            writtenStatuses := w.writtenStatuses + w.statuses.length,
            writtenTitles := w.writtenTitles + w.titles.length,
            writtenArtistRows := w.writtenArtistRows + w.artistRows,
            writtenGenreRows := w.writtenGenreRows + w.genreRows,
            writtenStyleRows := w.writtenStyleRows + w.styleRows,
            writtenLabelRows := w.writtenLabelRows + w.labelRows,
            releasesWritten := w.releasesWritten,
            closeCount := w.closeCount }
    else .error .panicked
  else .ok w

/-- First half of `ReleaseBatchWriter::write_release`: append the
end-of-record marker to each of the four list builders and bump the
pending counter (`releasesWritten` is the ghost record count). -/
def ReleaseBatchWriter.markRecordEnd (w : ReleaseBatchWriter) : ReleaseBatchWriter :=
  { w with artistRows := w.artistRows + 1, genreRows := w.genreRows + 1,
           styleRows := w.styleRows + 1, labelRows := w.labelRows + 1,
           pending := w.pending + 1, releasesWritten := w.releasesWritten + 1 }

/-- Model of `ReleaseBatchWriter::write_release` continued: after the
markers are appended and the counter bumped (`markRecordEnd`), flush
fires automatically exactly when the counter has reached `BATCH_SIZE`. -/
def ReleaseBatchWriter.write_release (w : ReleaseBatchWriter) :
    Except ProcessingError ReleaseBatchWriter :=
  if (w.markRecordEnd).pending = BATCH_SIZE then (w.markRecordEnd).flush
  else .ok w.markRecordEnd

/-- Model of `ReleaseBatchWriter::close`: flush any remainder, then close
the underlying `ArrowWriter` (which writes the file footer; counted by
`closeCount`). -/
def ReleaseBatchWriter.close (w : ReleaseBatchWriter) :
    Except ProcessingError ReleaseBatchWriter :=
  match w.flush with
  | .error e => .error e
  | .ok w1 => .ok { w1 with closeCount := w1.closeCount + 1 }

/-- Value of one ASCII decimal digit. -/
def digitVal? (c : Char) : Option Nat :=
  if '0' ≤ c ∧ c ≤ '9' then some (c.toNat - '0'.toNat) else none

/-- Accumulator loop for decimal parsing. -/
def parseDigitsAux : List Char → Nat → Option Nat
  | [], acc => some acc
  | c :: rest, acc =>
    match digitVal? c with
    | some d => parseDigitsAux rest (acc * 10 + d)
    | none => none

/-- Model of `str::parse::<u32>`: an optional leading plus sign followed
by at least one decimal digit, with the value required to fit in 32
bits (checked by the caller against `2 ^ 32`). -/
def parse_u32 (s : String) : Option Nat :=
  match s.data with
  | [] => none
  | '+' :: ds =>
    match ds with
    | [] => none
    | _ => parseDigitsAux ds 0
  | ds => parseDigitsAux ds 0

/-- Model of `parse_release_attributes`: walk the attributes of the
`release` start tag; `id` is parsed as a `u32` (a non-numeric or
overflowing value makes the source's `.parse().unwrap()` panic), `status`
is pushed verbatim, and any other attribute is silently ignored. -/
def parse_release_attributes : List (String × String) → ReleaseBatchWriter →
    (Except ProcessingError Unit) × ReleaseBatchWriter
  | [], w => (.ok (), w)
  | (k, v) :: rest, w =>
    if k = "id" then
      match parse_u32 v with
      | some n =>
        if n < 2 ^ 32 then parse_release_attributes rest (w.push_id n)
        else (.error .panicked, w)
      | none => (.error .panicked, w)
    else if k = "status" then parse_release_attributes rest (w.push_status v)
    else parse_release_attributes rest w

/-- Model of `parse_title`: one text token, pushed verbatim, then the
closing tag. -/
def parse_title (toks : List Event) (w : ReleaseBatchWriter) :
    (Except ProcessingError (List Event)) × ReleaseBatchWriter :=
  match toks with
  | [] => (.error .expectedText, w)
  | t :: rest =>
    match t.expect_text with
    | .error e => (.error e, w)
    | .ok s =>
      let w := w.push_title s
      match rest with
      | [] => (.error (.expectedEndOf "title"), w)
      | c :: rest1 =>
        match c.expect_end_of "title" with
        | .error e => (.error e, w)
        | .ok _ => (.ok rest1, w)

/-- Model of `parse_genres`: loop reading `genre` start tag, text
(unescaped with `replaceAmp` before pushing), end tag, until the
`genres` end tag. -/
def parse_genres : Nat → List Event → ReleaseBatchWriter →
    (Except ProcessingError (List Event)) × ReleaseBatchWriter
  | 0, _, w => (.error .truncated, w)
  | _ + 1, [], w => (.error (.expectedStartOf "genre"), w)
  | fuel + 1, e :: rest, w =>
    if e.is_end_of "genres" then (.ok rest, w)
    else
      match e.expect_start_of "genre" with
      | .error err => (.error err, w)
      | .ok _ =>
        match rest with
        | [] => (.error .expectedText, w)
        | t :: rest1 =>
          match t.expect_text with
          | .error err => (.error err, w)
          | .ok s =>
            let w := w.push_genre (replaceAmp s)
            match rest1 with
            | [] => (.error (.expectedEndOf "genre"), w)
            | c :: rest2 =>
              match c.expect_end_of "genre" with
              | .error err => (.error err, w)
              | .ok _ => parse_genres fuel rest2 w

/-- Model of `parse_styles`, identical to `parse_genres` over the
`styles`/`style` element names. -/
def parse_styles : Nat → List Event → ReleaseBatchWriter →
    (Except ProcessingError (List Event)) × ReleaseBatchWriter
  | 0, _, w => (.error .truncated, w)
  | _ + 1, [], w => (.error (.expectedStartOf "style"), w)
  | fuel + 1, e :: rest, w =>
    if e.is_end_of "styles" then (.ok rest, w)
    else
      match e.expect_start_of "style" with
      | .error err => (.error err, w)
      | .ok _ =>
        match rest with
        | [] => (.error .expectedText, w)
        | t :: rest1 =>
          match t.expect_text with
          | .error err => (.error err, w)
          | .ok s =>
            let w := w.push_style (replaceAmp s)
            match rest1 with
            | [] => (.error (.expectedEndOf "style"), w)
            | c :: rest2 =>
              match c.expect_end_of "style" with
              | .error err => (.error err, w)
              | .ok _ => parse_styles fuel rest2 w

/-- The attribute loop inside `parse_labels`: `id`, `catno` and `name`
attributes are pushed to the label struct builders, others ignored. -/
def parse_label_attributes : List (String × String) → ReleaseBatchWriter → ReleaseBatchWriter
  | [], w => w
  | (k, v) :: rest, w =>
    if k = "id" then parse_label_attributes rest (w.push_label_id v)
    else if k = "catno" then parse_label_attributes rest (w.push_label_cat_no v)
    else if k = "name" then parse_label_attributes rest (w.push_label_name v)
    else parse_label_attributes rest w

/-- Model of `parse_labels`: loop over self-closing `label` tags, taking
the struct fields from attributes and appending the per-item end marker,
until the `labels` end tag. -/
def parse_labels : Nat → List Event → ReleaseBatchWriter →
    (Except ProcessingError (List Event)) × ReleaseBatchWriter
  | 0, _, w => (.error .truncated, w)
  | _ + 1, [], w => (.error (.expectedEmpty "label"), w)
  | fuel + 1, e :: rest, w =>
    if e.is_end_of "labels" then (.ok rest, w)
    else
      match e.expect_empty "label" with
      | .error err => (.error err, w)
      | .ok (_, attrs) =>
        parse_labels fuel rest ((parse_label_attributes attrs w).push_end_of_label)

/-- Model of `parse_artist`: loop over the children of one `artist`
element, dispatching on the child name; `id`/`name` are required text,
`anv`/`join` may be empty (push null) or carry text, `role`/`tracks`
must be empty and are discarded, and any other child name hits the
source's `panic!`.  The artist end tag appends the per-item end marker
and returns. -/
def parse_artist : Nat → List Event → ReleaseBatchWriter →
    (Except ProcessingError (List Event)) × ReleaseBatchWriter
  | 0, _, w => (.error .truncated, w)
  | _ + 1, [], w => (.error .expectedStart, w)
  | fuel + 1, e :: rest, w =>
    if e.is_end_of "artist" then (.ok rest, w.push_end_of_artist)
    else
      match e.expect_start with
      | .error err => (.error err, w)
      | .ok (n, _) =>
        if n = "id" then
          match rest with
          | [] => (.error .expectedText, w)
          | t :: rest1 =>
            match t.expect_text with
            | .error err => (.error err, w)
            | .ok s =>
              let w := w.push_artist_id s
              match rest1 with
              | [] => (.error (.expectedEndOf "id"), w)
              | c :: rest2 =>
                match c.expect_end_of "id" with
                | .error err => (.error err, w)
                | .ok _ => parse_artist fuel rest2 w
        else if n = "name" then
          match rest with
          | [] => (.error .expectedText, w)
          | t :: rest1 =>
            match t.expect_text with
            | .error err => (.error err, w)
            | .ok s =>
              let w := w.push_artist_name s
              match rest1 with
              | [] => (.error (.expectedEndOf "name"), w)
              | c :: rest2 =>
                match c.expect_end_of "name" with
                | .error err => (.error err, w)
                | .ok _ => parse_artist fuel rest2 w
        else if n = "anv" then
          match rest with
          | [] => (.error .expectedText, w)
          | t :: rest1 =>
            if t.is_end_of "anv" then parse_artist fuel rest1 w.push_artist_anv_null
            else
              match t.expect_text with
              | .error err => (.error err, w)
              | .ok s =>
                let w := w.push_artist_anv s
                match rest1 with
                | [] => (.error (.expectedEndOf "anv"), w)
                | c :: rest2 =>
                  match c.expect_end_of "anv" with
                  | .error err => (.error err, w)
                  | .ok _ => parse_artist fuel rest2 w
        else if n = "join" then
          match rest with
          | [] => (.error .expectedText, w)
          | t :: rest1 =>
            if t.is_end_of "join" then parse_artist fuel rest1 w.push_artist_join_null
            else
              match t.expect_text with
              | .error err => (.error err, w)
              | .ok s =>
                let w := w.push_artist_join s
                match rest1 with
                | [] => (.error (.expectedEndOf "join"), w)
                | c :: rest2 =>
                  match c.expect_end_of "join" with
                  | .error err => (.error err, w)
                  | .ok _ => parse_artist fuel rest2 w
        else if n = "role" then
          match rest with
          | [] => (.error (.expectedEndOf "role"), w)
          | c :: rest1 =>
            match c.expect_end_of "role" with
            | .error err => (.error err, w)
            | .ok _ => parse_artist fuel rest1 w
        else if n = "tracks" then
          match rest with
          | [] => (.error (.expectedEndOf "tracks"), w)
          | c :: rest1 =>
            match c.expect_end_of "tracks" with
            | .error err => (.error err, w)
            | .ok _ => parse_artist fuel rest1 w
        else (.error .panicked, w)

/-- Propagation of a sub-parser outcome (the `?` operator of the source):
on failure the error and the writer state at the failure point are
returned, on success the continuation runs on the remaining tokens. -/
def bindParse (r : (Except ProcessingError (List Event)) × ReleaseBatchWriter)
    (k : List Event → ReleaseBatchWriter →
      (Except ProcessingError (List Event)) × ReleaseBatchWriter) :
    (Except ProcessingError (List Event)) × ReleaseBatchWriter :=
  match r with
  | (.error e, w) => (.error e, w)
  | (.ok rest, w) => k rest w

/-- Propagation of a writer-free sub-parser outcome (the `?` operator on
the skip parsers, which never touch the writer). -/
def bindSkip (r : Except ProcessingError (List Event)) (w : ReleaseBatchWriter)
    (k : List Event → ReleaseBatchWriter →
      (Except ProcessingError (List Event)) × ReleaseBatchWriter) :
    (Except ProcessingError (List Event)) × ReleaseBatchWriter :=
  match r with
  | .error e => (.error e, w)
  | .ok rest => k rest w

/-- Model of `parse_artists`: loop over `artist` start tags until the
`artists` end tag, handing each element to `parse_artist`. -/
def parse_artists : Nat → List Event → ReleaseBatchWriter →
    (Except ProcessingError (List Event)) × ReleaseBatchWriter
  | 0, _, w => (.error .truncated, w)
  | _ + 1, [], w => (.error (.expectedStartOf "artist"), w)
  | fuel + 1, e :: rest, w =>
    if e.is_end_of "artists" then (.ok rest, w)
    else
      match e.expect_start_of "artist" with
      | .error err => (.error err, w)
      | .ok _ => bindParse (parse_artist (rest.length + 1) rest w) (parse_artists fuel)

/-- Model of `parse_images`: every child must be a self-closing `image`
tag; values are discarded. -/
def parse_images : Nat → List Event → Except ProcessingError (List Event)
  | 0, _ => .error .truncated
  | _ + 1, [] => .error (.expectedEmpty "image")
  | fuel + 1, e :: rest =>
    if e.is_end_of "images" then .ok rest
    else
      match e.expect_empty "image" with
      | .error err => .error err
      | .ok _ => parse_images fuel rest

/-- The shared body of the twelve ignored-subtree parsers: read and
discard tokens until the first end tag whose name matches, with no
tracking of nesting depth. -/
def skipPast (fuel : Nat) (name : String) : List Event → Except ProcessingError (List Event) :=
  match fuel with
  | 0 => fun _ => .error .truncated
  | fuel + 1 => fun toks =>
    match toks with
    | [] => .error .truncated
    | e :: rest => if e.is_end_of name then .ok rest else skipPast fuel name rest

/-- Model of `parse_extra_artists` (skip loop). -/
def parse_extra_artists (fuel : Nat) (toks : List Event) :
    Except ProcessingError (List Event) :=
  skipPast fuel "extraartists" toks

/-- Model of `parse_formats` (skip loop). -/
def parse_formats (fuel : Nat) (toks : List Event) : Except ProcessingError (List Event) :=
  skipPast fuel "formats" toks

/-- Model of `parse_country` (skip loop). -/
def parse_country (fuel : Nat) (toks : List Event) : Except ProcessingError (List Event) :=
  skipPast fuel "country" toks

/-- Model of `parse_data_quality` (skip loop). -/
def parse_data_quality (fuel : Nat) (toks : List Event) :
    Except ProcessingError (List Event) :=
  skipPast fuel "data_quality" toks

/-- Model of `parse_master_id` (skip loop). -/
def parse_master_id (fuel : Nat) (toks : List Event) : Except ProcessingError (List Event) :=
  skipPast fuel "master_id" toks

/-- Model of `parse_tracklist` (skip loop). -/
def parse_tracklist (fuel : Nat) (toks : List Event) : Except ProcessingError (List Event) :=
  skipPast fuel "tracklist" toks

/-- Model of `parse_videos` (skip loop). -/
def parse_videos (fuel : Nat) (toks : List Event) : Except ProcessingError (List Event) :=
  skipPast fuel "videos" toks

/-- Model of `parse_released` (skip loop). -/
def parse_released (fuel : Nat) (toks : List Event) : Except ProcessingError (List Event) :=
  skipPast fuel "released" toks

/-- Model of `parse_companies` (skip loop). -/
def parse_companies (fuel : Nat) (toks : List Event) : Except ProcessingError (List Event) :=
  skipPast fuel "companies" toks

/-- Model of `parse_notes` (skip loop). -/
def parse_notes (fuel : Nat) (toks : List Event) : Except ProcessingError (List Event) :=
  skipPast fuel "notes" toks

/-- Model of `parse_identifiers` (skip loop). -/
def parse_identifiers (fuel : Nat) (toks : List Event) :
    Except ProcessingError (List Event) :=
  skipPast fuel "identifiers" toks

/-- The dispatch table of `parse_release` (the `match event.name()` of
the source): one recognized child element, whose name has already been
read from the start tag, is parsed, returning the tokens following its
closing tag; an unrecognized name hits the source's `panic!`.  The skip
parsers never touch the writer, so their arms pair the unchanged writer
with the token outcome. -/
def parse_release_child (n : String) (toks : List Event) (w : ReleaseBatchWriter) :
    (Except ProcessingError (List Event)) × ReleaseBatchWriter :=
  match n with
  | "title" => parse_title toks w
  | "genres" => parse_genres (toks.length + 1) toks w
  | "styles" => parse_styles (toks.length + 1) toks w
  | "images" => (parse_images (toks.length + 1) toks, w)
  | "artists" => parse_artists (toks.length + 1) toks w
  | "extraartists" => (parse_extra_artists (toks.length + 1) toks, w)
  | "labels" => parse_labels (toks.length + 1) toks w
  | "formats" => (parse_formats (toks.length + 1) toks, w)
  | "country" => (parse_country (toks.length + 1) toks, w)
  | "data_quality" => (parse_data_quality (toks.length + 1) toks, w)
  | "master_id" => (parse_master_id (toks.length + 1) toks, w)
  | "tracklist" => (parse_tracklist (toks.length + 1) toks, w)
  | "videos" => (parse_videos (toks.length + 1) toks, w)
  | "released" => (parse_released (toks.length + 1) toks, w)
  | "companies" => (parse_companies (toks.length + 1) toks, w)
  | "notes" => (parse_notes (toks.length + 1) toks, w)
  | "identifiers" => (parse_identifiers (toks.length + 1) toks, w)
  | _ => (.error .panicked, w)

/-- Model of `parse_release`: the per-record child loop.  An end tag for
`release` ends the loop (after which the mandatory newline separator is
asserted); a self-closing child is skipped; otherwise the event must be
a start tag and is dispatched by name through `parse_release_child`. -/
def parse_release : Nat → List Event → ReleaseBatchWriter →
    (Except ProcessingError (List Event)) × ReleaseBatchWriter
  | 0, _, w => (.error .truncated, w)
  | _ + 1, [], w => (.error .expectedStart, w)
  | fuel + 1, e :: rest, w =>
    if e.is_end_of "release" then
      match rest with
      | [] => (.error .expectedNewline, w)
      | t :: rest1 =>
        match t.expect_new_line with
        | .error err => (.error err, w)
        | .ok _ => (.ok rest1, w)
    else if e.is_empty_tag then parse_release fuel rest w
    else
      match e.expect_start with
      | .error err => (.error err, w)
      | .ok (n, _) => bindParse (parse_release_child n rest w) (parse_release fuel)

/-- The record loop of `main`: read an event; the `releases` end tag ends
the loop (returning the remaining tokens); otherwise it must be a
`release` start tag, whose attributes and children are parsed and which
is then committed with `write_release`. -/
def mainLoop : Nat → List Event → ReleaseBatchWriter →
    (Except ProcessingError (List Event)) × ReleaseBatchWriter
  | 0, _, w => (.error .truncated, w)
  | _ + 1, [], w => (.error (.expectedStartOf "release"), w)
  | fuel + 1, e :: rest, w =>
    if e.is_end_of "releases" then (.ok rest, w)
    else
      match e.expect_start_of "release" with
      | .error err => (.error err, w)
      | .ok (_, attrs) =>
        match parse_release_attributes attrs w with
        | (.error err, w) => (.error err, w)
        | (.ok _, w) =>
          match parse_release (rest.length + 1) rest w with
          | (.error err, w) => (.error err, w)
          | (.ok rest1, w) =>
            match w.write_release with
            | .error err => (.error err, w)
            | .ok w => mainLoop fuel rest1 w

/-- The tail of `main` after the record loop: close the writer, then
assert the trailing newline and end-of-input.  Takes the record loop's
outcome together with the writer state. -/
def finishRun : (Except ProcessingError (List Event)) × ReleaseBatchWriter →
    (Except ProcessingError Unit) × ReleaseBatchWriter
  | (.error e, w) => (.error e, w)
  | (.ok rest, w) =>
    match w.close with
    | .error e => (.error e, w)
    | .ok w =>
      match rest with
      | [] => (.error .expectedNewline, w)
      | t :: rest1 =>
        match t.expect_new_line with
        | .error e => (.error e, w)
        | .ok _ =>
          match rest1 with
          | [] => (.ok (), w)
          | u :: _ =>
            match u.expect_eof with
            | .error e => (.error e, w)
            | .ok _ => (.ok (), w)

/-- Model of `main` on a token stream: assert the `releases` start tag
and the following newline, run the record loop on a fresh writer, and
finish with close and the trailing assertions.  The result is the
process outcome together with the writer state at exit (so that claims
about failing runs can observe whether the file was finalized). -/
def runMain (toks : List Event) : (Except ProcessingError Unit) × ReleaseBatchWriter :=
  match toks with
  | [] => (.error (.expectedStartOf "releases"), ReleaseBatchWriter.new)
  | e :: rest =>
    match e.expect_start_of "releases" with
    | .error err => (.error err, ReleaseBatchWriter.new)
    | .ok _ =>
      match rest with
      | [] => (.error .expectedNewline, ReleaseBatchWriter.new)
      | t :: rest1 =>
        match t.expect_new_line with
        | .error err => (.error err, ReleaseBatchWriter.new)
        | .ok _ => finishRun (mainLoop (rest1.length + 1) rest1 ReleaseBatchWriter.new)

/-! ### Batching and alignment bookkeeping

`Scaffold` projects out the writer fields that only `write_release`,
`flush` and `close` may change: the field parsers only append values and
per-item markers, so they leave the scaffold untouched.  This is the
backbone of the row-alignment and close-discipline proofs. -/

/-- The batching/accounting fields of the writer (everything except the
per-value buffers and the per-item markers). -/
structure Scaffold where
  pending : Nat
  artistRows : Nat
  genreRows : Nat
  styleRows : Nat
  labelRows : Nat
  flushedBatches : List Nat
  writtenIds : Nat
  writtenStatuses : Nat
  writtenTitles : Nat
  writtenArtistRows : Nat
  writtenGenreRows : Nat
  writtenStyleRows : Nat
  writtenLabelRows : Nat
  releasesWritten : Nat
  closeCount : Nat
  deriving DecidableEq, Repr

/-- Projection of a writer onto its batching/accounting fields. -/
def ReleaseBatchWriter.scaffold (w : ReleaseBatchWriter) : Scaffold :=
  { pending := w.pending, artistRows := w.artistRows, genreRows := w.genreRows,
    styleRows := w.styleRows, labelRows := w.labelRows,
    flushedBatches := w.flushedBatches, writtenIds := w.writtenIds,
    writtenStatuses := w.writtenStatuses, writtenTitles := w.writtenTitles,
    writtenArtistRows := w.writtenArtistRows, writtenGenreRows := w.writtenGenreRows,
    writtenStyleRows := w.writtenStyleRows, writtenLabelRows := w.writtenLabelRows,
    releasesWritten := w.releasesWritten, closeCount := w.closeCount }

@[simp] theorem scaffold_push_id (w : ReleaseBatchWriter) (n : Nat) :
    (w.push_id n).scaffold = w.scaffold := rfl

@[simp] theorem scaffold_push_status (w : ReleaseBatchWriter) (s : String) :
    (w.push_status s).scaffold = w.scaffold := rfl

@[simp] theorem scaffold_push_title (w : ReleaseBatchWriter) (s : String) :
    (w.push_title s).scaffold = w.scaffold := rfl

@[simp] theorem scaffold_push_artist_id (w : ReleaseBatchWriter) (s : String) :
    (w.push_artist_id s).scaffold = w.scaffold := rfl

@[simp] theorem scaffold_push_artist_name (w : ReleaseBatchWriter) (s : String) :
    (w.push_artist_name s).scaffold = w.scaffold := rfl

@[simp] theorem scaffold_push_artist_anv (w : ReleaseBatchWriter) (s : String) :
    (w.push_artist_anv s).scaffold = w.scaffold := rfl

@[simp] theorem scaffold_push_artist_anv_null (w : ReleaseBatchWriter) :
    w.push_artist_anv_null.scaffold = w.scaffold := rfl

@[simp] theorem scaffold_push_artist_join (w : ReleaseBatchWriter) (s : String) :
    (w.push_artist_join s).scaffold = w.scaffold := rfl

@[simp] theorem scaffold_push_artist_join_null (w : ReleaseBatchWriter) :
    w.push_artist_join_null.scaffold = w.scaffold := rfl

@[simp] theorem scaffold_push_end_of_artist (w : ReleaseBatchWriter) :
    w.push_end_of_artist.scaffold = w.scaffold := rfl

@[simp] theorem scaffold_push_genre (w : ReleaseBatchWriter) (s : String) :
    (w.push_genre s).scaffold = w.scaffold := rfl

@[simp] theorem scaffold_push_style (w : ReleaseBatchWriter) (s : String) :
    (w.push_style s).scaffold = w.scaffold := rfl

@[simp] theorem scaffold_push_label_id (w : ReleaseBatchWriter) (s : String) :
    (w.push_label_id s).scaffold = w.scaffold := rfl

@[simp] theorem scaffold_push_label_cat_no (w : ReleaseBatchWriter) (s : String) :
    (w.push_label_cat_no s).scaffold = w.scaffold := rfl

@[simp] theorem scaffold_push_label_name (w : ReleaseBatchWriter) (s : String) :
    (w.push_label_name s).scaffold = w.scaffold := rfl

@[simp] theorem scaffold_push_end_of_label (w : ReleaseBatchWriter) :
    w.push_end_of_label.scaffold = w.scaffold := rfl

theorem parse_release_attributes_scaffold (attrs : List (String × String))
    (w : ReleaseBatchWriter) :
    ((parse_release_attributes attrs w).2).scaffold = w.scaffold := by
  induction attrs generalizing w with
  | nil => rfl
  | cons a rest ih =>
    obtain ⟨k, v⟩ := a
    simp only [parse_release_attributes]
    repeat' split
    all_goals simp [ih]

theorem parse_title_scaffold (toks : List Event) (w : ReleaseBatchWriter) :
    ((parse_title toks w).2).scaffold = w.scaffold := by
  simp only [parse_title]
  repeat' split
  all_goals simp

theorem parse_label_attributes_scaffold (attrs : List (String × String))
    (w : ReleaseBatchWriter) :
    (parse_label_attributes attrs w).scaffold = w.scaffold := by
  induction attrs generalizing w with
  | nil => rfl
  | cons a rest ih =>
    obtain ⟨k, v⟩ := a
    simp only [parse_label_attributes]
    repeat' split
    all_goals simp [ih]

theorem parse_genres_scaffold (fuel : Nat) (toks : List Event) (w : ReleaseBatchWriter) :
    ((parse_genres fuel toks w).2).scaffold = w.scaffold := by
  induction fuel generalizing toks w with
  | zero => rfl
  | succ fuel ih =>
    cases toks with
    | nil => rfl
    | cons e rest =>
      simp only [parse_genres]
      repeat' split
      all_goals simp [ih]

theorem parse_styles_scaffold (fuel : Nat) (toks : List Event) (w : ReleaseBatchWriter) :
    ((parse_styles fuel toks w).2).scaffold = w.scaffold := by
  induction fuel generalizing toks w with
  | zero => rfl
  | succ fuel ih =>
    cases toks with
    | nil => rfl
    | cons e rest =>
      simp only [parse_styles]
      repeat' split
      all_goals simp [ih]

theorem parse_labels_scaffold (fuel : Nat) (toks : List Event) (w : ReleaseBatchWriter) :
    ((parse_labels fuel toks w).2).scaffold = w.scaffold := by
  induction fuel generalizing toks w with
  | zero => rfl
  | succ fuel ih =>
    cases toks with
    | nil => rfl
    | cons e rest =>
      simp only [parse_labels]
      repeat' split
      all_goals simp [ih, parse_label_attributes_scaffold]

theorem parse_artist_scaffold (fuel : Nat) (toks : List Event) (w : ReleaseBatchWriter) :
    ((parse_artist fuel toks w).2).scaffold = w.scaffold := by
  induction fuel generalizing toks w with
  | zero => rfl
  | succ fuel ih =>
    cases toks with
    | nil => rfl
    | cons e rest =>
      simp only [parse_artist]
      repeat' split
      all_goals simp [ih]

theorem bindParse_scaffold (r : (Except ProcessingError (List Event)) × ReleaseBatchWriter)
    (k : List Event → ReleaseBatchWriter →
      (Except ProcessingError (List Event)) × ReleaseBatchWriter)
    (hk : ∀ rest w1, ((k rest w1).2).scaffold = w1.scaffold) :
    ((bindParse r k).2).scaffold = (r.2).scaffold := by
  obtain ⟨res, w⟩ := r
  cases res with
  | error e => rfl
  | ok rest => exact hk rest w

theorem bindSkip_scaffold (r : Except ProcessingError (List Event))
    (w : ReleaseBatchWriter)
    (k : List Event → ReleaseBatchWriter →
      (Except ProcessingError (List Event)) × ReleaseBatchWriter)
    (hk : ∀ rest w1, ((k rest w1).2).scaffold = w1.scaffold) :
    ((bindSkip r w k).2).scaffold = w.scaffold := by
  cases r with
  | error e => rfl
  | ok rest => exact hk rest w

theorem parse_artists_scaffold (fuel : Nat) (toks : List Event) (w : ReleaseBatchWriter) :
    ((parse_artists fuel toks w).2).scaffold = w.scaffold := by
  induction fuel generalizing toks w with
  | zero => rfl
  | succ fuel ih =>
    cases toks with
    | nil => rfl
    | cons e rest =>
      simp only [parse_artists]
      repeat' split
      all_goals simp [bindParse_scaffold _ _ ih, parse_artist_scaffold]

theorem parse_release_child_scaffold (n : String) (toks : List Event)
    (w : ReleaseBatchWriter) :
    ((parse_release_child n toks w).2).scaffold = w.scaffold := by
  simp only [parse_release_child]
  repeat' split
  all_goals
    simp [parse_title_scaffold, parse_genres_scaffold, parse_styles_scaffold,
      parse_labels_scaffold, parse_artists_scaffold]

theorem parse_release_scaffold (fuel : Nat) (toks : List Event) (w : ReleaseBatchWriter) :
    ((parse_release fuel toks w).2).scaffold = w.scaffold := by
  induction fuel generalizing toks w with
  | zero => rfl
  | succ fuel ih =>
    cases toks with
    | nil => rfl
    | cons e rest =>
      simp only [parse_release]
      repeat' split
      all_goals first
        | rfl
        | exact ih rest w
        | simp [bindParse_scaffold _ _ ih, parse_release_child_scaffold]

theorem closeCount_eq_of_scaffold {w1 w2 : ReleaseBatchWriter}
    (h : w1.scaffold = w2.scaffold) : w1.closeCount = w2.closeCount :=
  congrArg Scaffold.closeCount h

/-- The row-alignment invariant on the accounting fields: the four list
columns carry one end-of-record marker per pending record, all columns
written to the file so far have the same row count, and markers written
plus markers pending account for every record committed so far. -/
def alignedScaffold (s : Scaffold) : Prop :=
  s.artistRows = s.pending ∧ s.genreRows = s.pending ∧ s.styleRows = s.pending ∧
  s.labelRows = s.pending ∧
  s.writtenIds = s.writtenArtistRows ∧ s.writtenStatuses = s.writtenArtistRows ∧
  s.writtenTitles = s.writtenArtistRows ∧ s.writtenGenreRows = s.writtenArtistRows ∧
  s.writtenStyleRows = s.writtenArtistRows ∧ s.writtenLabelRows = s.writtenArtistRows ∧
  s.writtenArtistRows + s.pending = s.releasesWritten

/-- The row-alignment invariant on a writer. -/
def aligned (w : ReleaseBatchWriter) : Prop :=
  alignedScaffold w.scaffold

theorem aligned_of_scaffold {w1 w2 : ReleaseBatchWriter}
    (h : w1.scaffold = w2.scaffold) (ha : aligned w2) : aligned w1 := by
  unfold aligned
  rw [h]
  exact ha

theorem aligned_new : aligned ReleaseBatchWriter.new := by
  refine ⟨rfl, rfl, rfl, rfl, rfl, rfl, rfl, rfl, rfl, rfl, rfl⟩

theorem flush_closeCount {w w1 : ReleaseBatchWriter} (h : w.flush = .ok w1) :
    w1.closeCount = w.closeCount := by
  unfold ReleaseBatchWriter.flush at h
  split at h
  · split at h
    · simp only [Except.ok.injEq] at h
      subst h
      rfl
    · simp at h
  · simp only [Except.ok.injEq] at h
    subst h
    rfl

theorem flush_pending {w w1 : ReleaseBatchWriter} (h : w.flush = .ok w1) :
    w1.pending = 0 := by
  unfold ReleaseBatchWriter.flush at h
  split at h
  case isTrue hp =>
    split at h
    · simp only [Except.ok.injEq] at h
      subst h
      rfl
    · simp at h
  case isFalse hp =>
    simp only [Except.ok.injEq] at h
    subst h
    omega

theorem flush_aligned {w w1 : ReleaseBatchWriter} (ha : aligned w)
    (h : w.flush = .ok w1) : aligned w1 := by
  unfold ReleaseBatchWriter.flush at h
  split at h
  case isTrue hp =>
    split at h
    case isTrue hc =>
      simp only [Except.ok.injEq] at h
      subst h
      obtain ⟨a1, a2, a3, a4, a5, a6, a7, a8, a9, a10, a11⟩ := ha
      obtain ⟨c1, c2, c3, c4, c5, c6⟩ := hc
      dsimp [aligned, alignedScaffold, ReleaseBatchWriter.scaffold] at *
      omega
    case isFalse hc => simp at h
  case isFalse hp =>
    simp only [Except.ok.injEq] at h
    subst h
    exact ha

theorem write_release_closeCount {w w1 : ReleaseBatchWriter}
    (h : w.write_release = .ok w1) : w1.closeCount = w.closeCount := by
  unfold ReleaseBatchWriter.write_release at h
  split at h
  · have h2 := flush_closeCount h
    exact h2
  · simp only [Except.ok.injEq] at h
    subst h
    rfl

theorem write_release_aligned {w w1 : ReleaseBatchWriter} (ha : aligned w)
    (h : w.write_release = .ok w1) : aligned w1 := by
  unfold ReleaseBatchWriter.write_release at h
  obtain ⟨a1, a2, a3, a4, a5, a6, a7, a8, a9, a10, a11⟩ := ha
  split at h
  · refine flush_aligned ?_ h
    dsimp [aligned, alignedScaffold, ReleaseBatchWriter.scaffold,
      ReleaseBatchWriter.markRecordEnd] at *
    omega
  · simp only [Except.ok.injEq] at h
    subst h
    dsimp [aligned, alignedScaffold, ReleaseBatchWriter.scaffold,
      ReleaseBatchWriter.markRecordEnd] at *
    omega

/-- Each `write_release` grows the total (written plus buffered) count of
end-of-record markers of every list column by exactly one. -/
theorem write_release_markers {w w1 : ReleaseBatchWriter}
    (h : w.write_release = .ok w1) :
    w1.writtenArtistRows + w1.artistRows = w.writtenArtistRows + w.artistRows + 1 ∧
    w1.writtenGenreRows + w1.genreRows = w.writtenGenreRows + w.genreRows + 1 ∧
    w1.writtenStyleRows + w1.styleRows = w.writtenStyleRows + w.styleRows + 1 ∧
    w1.writtenLabelRows + w1.labelRows = w.writtenLabelRows + w.labelRows + 1 := by
  unfold ReleaseBatchWriter.write_release at h
  split at h
  · unfold ReleaseBatchWriter.flush at h
    split at h
    · split at h
      · simp only [Except.ok.injEq] at h
        subst h
        dsimp [ReleaseBatchWriter.markRecordEnd]
        omega
      · simp at h
    · simp only [Except.ok.injEq] at h
      subst h
      dsimp [ReleaseBatchWriter.markRecordEnd]
      omega
  · simp only [Except.ok.injEq] at h
    subst h
    dsimp [ReleaseBatchWriter.markRecordEnd]
    omega

theorem close_closeCount {w w1 : ReleaseBatchWriter} (h : w.close = .ok w1) :
    w1.closeCount = w.closeCount + 1 := by
  unfold ReleaseBatchWriter.close at h
  cases hf : w.flush with
  | error e => rw [hf] at h; simp at h
  | ok w2 =>
    rw [hf] at h
    simp only [Except.ok.injEq] at h
    subst h
    simp [flush_closeCount hf]

/-- After a successful `close` from an aligned writer, every column's
written row count equals the number of records committed. -/
theorem close_written {w w1 : ReleaseBatchWriter} (ha : aligned w)
    (h : w.close = .ok w1) :
    w1.writtenIds = w1.releasesWritten ∧ w1.writtenStatuses = w1.releasesWritten ∧
    w1.writtenTitles = w1.releasesWritten ∧ w1.writtenArtistRows = w1.releasesWritten ∧
    w1.writtenGenreRows = w1.releasesWritten ∧ w1.writtenStyleRows = w1.releasesWritten ∧
    w1.writtenLabelRows = w1.releasesWritten := by
  unfold ReleaseBatchWriter.close at h
  cases hf : w.flush with
  | error e => rw [hf] at h; simp at h
  | ok w2 =>
    rw [hf] at h
    simp only [Except.ok.injEq] at h
    subst h
    have ha2 := flush_aligned ha hf
    have hp2 := flush_pending hf
    obtain ⟨a1, a2, a3, a4, a5, a6, a7, a8, a9, a10, a11⟩ := ha2
    dsimp [aligned, alignedScaffold, ReleaseBatchWriter.scaffold] at *
    omega

theorem mainLoop_closeCount (fuel : Nat) (toks : List Event) (w : ReleaseBatchWriter) :
    ((mainLoop fuel toks w).2).closeCount = w.closeCount := by
  induction fuel generalizing toks w with
  | zero => rfl
  | succ fuel ih =>
    cases toks with
    | nil => rfl
    | cons e rest =>
      simp only [mainLoop]
      split
      · rfl
      · cases hs : e.expect_start_of "release" with
        | error err => simp [hs]
        | ok p =>
          obtain ⟨nm, attrs⟩ := p
          simp only [hs]
          cases hA : parse_release_attributes attrs w with
          | mk resA wA =>
            have hAs : wA.scaffold = w.scaffold := by
              have h0 := parse_release_attributes_scaffold attrs w
              rw [hA] at h0
              exact h0
            cases resA with
            | error err => simp [hA, closeCount_eq_of_scaffold hAs]
            | ok u =>
              cases hR : parse_release (rest.length + 1) rest wA with
              | mk resR wR =>
                have hRs : wR.scaffold = wA.scaffold := by
                  have h0 := parse_release_scaffold (rest.length + 1) rest wA
                  rw [hR] at h0
                  exact h0
                have hWA : wR.closeCount = w.closeCount := by
                  rw [closeCount_eq_of_scaffold hRs, closeCount_eq_of_scaffold hAs]
                cases resR with
                | error err => simp [hA, hR, hWA]
                | ok rest1 =>
                  cases hW : wR.write_release with
                  | error err => simp [hA, hR, hW, hWA]
                  | ok wN =>
                    have hN : wN.closeCount = w.closeCount := by
                      rw [write_release_closeCount hW, hWA]
                    simp [hA, hR, hW, ih, hN]

theorem mainLoop_aligned (fuel : Nat) (toks : List Event) (w : ReleaseBatchWriter)
    (rest1 : List Event) (w1 : ReleaseBatchWriter)
    (h : mainLoop fuel toks w = (.ok rest1, w1)) (ha : aligned w) : aligned w1 := by
  induction fuel generalizing toks w with
  | zero => simp [mainLoop] at h
  | succ fuel ih =>
    cases toks with
    | nil => simp [mainLoop] at h
    | cons e rest =>
      simp only [mainLoop] at h
      split at h
      · simp only [Prod.mk.injEq, Except.ok.injEq] at h
        obtain ⟨h1, h2⟩ := h
        subst h2
        exact ha
      · cases hs : e.expect_start_of "release" with
        | error err => simp [hs] at h
        | ok p =>
          obtain ⟨nm, attrs⟩ := p
          simp only [hs] at h
          cases hA : parse_release_attributes attrs w with
          | mk resA wA =>
            have hAs : wA.scaffold = w.scaffold := by
              have h0 := parse_release_attributes_scaffold attrs w
              rw [hA] at h0
              exact h0
            cases resA with
            | error err => simp [hA] at h
            | ok u =>
              simp only [hA] at h
              cases hR : parse_release (rest.length + 1) rest wA with
              | mk resR wR =>
                have hRs : wR.scaffold = wA.scaffold := by
                  have h0 := parse_release_scaffold (rest.length + 1) rest wA
                  rw [hR] at h0
                  exact h0
                cases resR with
                | error err => simp [hR] at h
                | ok rest2 =>
                  simp only [hR] at h
                  cases hW : wR.write_release with
                  | error err => simp [hW] at h
                  | ok wN =>
                    simp only [hW] at h
                    have haR : aligned wR :=
                      aligned_of_scaffold hRs (aligned_of_scaffold hAs ha)
                    exact ih rest2 wN h (write_release_aligned haR hW)

theorem finishRun_writer_of_close {rest : List Event} {w1 w2 : ReleaseBatchWriter}
    (h : w1.close = .ok w2) : (finishRun (.ok rest, w1)).2 = w2 := by
  simp only [finishRun, h]
  cases rest with
  | nil => rfl
  | cons t rest1 =>
    cases ht : t.expect_new_line with
    | error e => simp [ht]
    | ok u =>
      simp only [ht]
      cases rest1 with
      | nil => rfl
      | cons v rest2 =>
        cases hv : v.expect_eof with
        | error e => simp [hv]
        | ok u2 => simp [hv]

theorem finishRun_ok_inv (r : (Except ProcessingError (List Event)) × ReleaseBatchWriter)
    (h : (finishRun r).1 = .ok ()) :
    ∃ rest w1 w2, r = (.ok rest, w1) ∧ w1.close = .ok w2 ∧ (finishRun r).2 = w2 := by
  obtain ⟨res, w1⟩ := r
  cases res with
  | error e => simp [finishRun] at h
  | ok rest =>
    cases hc : w1.close with
    | error e => simp [finishRun, hc] at h
    | ok w2 =>
      refine ⟨rest, w1, w2, rfl, hc, finishRun_writer_of_close hc⟩

/-! ### Feeding whole records to the writer

The batch-boundary property is about the writer alone.  One record is
fed by pushing its scalar fields (the values are irrelevant to the
batching behaviour) and committing it with `write_release`, exactly the
sequence a parsed record produces. -/

/-- Push one complete record's scalar fields and commit it. -/
def feedRecord (w : ReleaseBatchWriter) : Except ProcessingError ReleaseBatchWriter :=
  (((w.push_id 1).push_status "Accepted").push_title "T").write_release

/-- Feed `n` complete records to a fresh writer. -/
def feedN : Nat → Except ProcessingError ReleaseBatchWriter
  | 0 => .ok ReleaseBatchWriter.new
  | n + 1 =>
    match feedN n with
    | .error e => .error e
    | .ok w => feedRecord w

/-- The writer state after `n` records of a batch in progress. -/
def midBatch (n : Nat) : ReleaseBatchWriter :=
  { ReleaseBatchWriter.new with
    pending := n, ids := List.replicate n 1, statuses := List.replicate n "Accepted",
    titles := List.replicate n "T", artistRows := n, genreRows := n, styleRows := n,
    labelRows := n, releasesWritten := n }

theorem feedN_succ (n : Nat) :
    feedN (n + 1) =
      match feedN n with
      | .error e => .error e
      | .ok w => feedRecord w := rfl

theorem feedN_mid : ∀ n, n < BATCH_SIZE → feedN n = .ok (midBatch n) := by
  intro n
  induction n with
  | zero => intro h; rfl
  | succ n ih =>
    intro h
    have hn : n < BATCH_SIZE := by omega
    rw [feedN_succ, ih hn]
    simp only [feedRecord, ReleaseBatchWriter.push_id, ReleaseBatchWriter.push_status,
      ReleaseBatchWriter.push_title, ReleaseBatchWriter.write_release,
      ReleaseBatchWriter.markRecordEnd, midBatch, ReleaseBatchWriter.new]
    rw [if_neg (by omega)]
    simp [midBatch, ReleaseBatchWriter.new, List.replicate_succ']

/-- The writer state just after the automatic flush of a full batch. -/
def afterFlush : ReleaseBatchWriter :=
  { ReleaseBatchWriter.new with
    flushedBatches := [BATCH_SIZE], writtenIds := BATCH_SIZE,
    writtenStatuses := BATCH_SIZE, writtenTitles := BATCH_SIZE,
    writtenArtistRows := BATCH_SIZE, writtenGenreRows := BATCH_SIZE,
    writtenStyleRows := BATCH_SIZE, writtenLabelRows := BATCH_SIZE,
    releasesWritten := BATCH_SIZE }

/-- Unfolding of a successful flush, stated symbolically so that no
decidable condition is ever evaluated on concrete buffers. -/
theorem flush_full (w : ReleaseBatchWriter) (h1 : w.pending > 0)
    (h2 : w.ids.length = w.artistRows) (h3 : w.statuses.length = w.artistRows)
    (h4 : w.titles.length = w.artistRows) (h5 : w.genreRows = w.artistRows)
    (h6 : w.styleRows = w.artistRows) (h7 : w.labelRows = w.artistRows) :
    w.flush = .ok
      { pending := 0, ids := [], statuses := [], titles := [],
        artistIds := [], artistNames := [], artistAnvs := [], artistJoins := [],
        artistItems := 0, artistRows := 0, genres := [], genreRows := 0,
        styles := [], styleRows := 0, labelIds := [], labelCatNos := [],
        labelNames := [], labelItems := 0, labelRows := 0,
        flushedBatches := w.flushedBatches ++ [w.artistRows],
        writtenIds := w.writtenIds + w.ids.length,
        writtenStatuses := w.writtenStatuses + w.statuses.length,
        writtenTitles := w.writtenTitles + w.titles.length,
        writtenArtistRows := w.writtenArtistRows + w.artistRows,
        writtenGenreRows := w.writtenGenreRows + w.genreRows,
        writtenStyleRows := w.writtenStyleRows + w.styleRows,
        writtenLabelRows := w.writtenLabelRows + w.labelRows,
        releasesWritten := w.releasesWritten,
        closeCount := w.closeCount } := by
  unfold ReleaseBatchWriter.flush
  rw [if_pos h1, if_pos ⟨h2, h3, h4, h5, h6, h7⟩]

/-- Feeding the record that completes a batch: stated symbolically over
any aligned writer one short of the threshold. -/
theorem feedRecord_full (w : ReleaseBatchWriter)
    (hpend : w.pending + 1 = BATCH_SIZE)
    (hids : w.ids.length = w.pending) (hsts : w.statuses.length = w.pending)
    (htls : w.titles.length = w.pending) (hart : w.artistRows = w.pending)
    (hgen : w.genreRows = w.pending) (hsty : w.styleRows = w.pending)
    (hlab : w.labelRows = w.pending) :
    feedRecord w = .ok
      { pending := 0, ids := [], statuses := [], titles := [],
        artistIds := [], artistNames := [], artistAnvs := [], artistJoins := [],
        artistItems := 0, artistRows := 0, genres := [], genreRows := 0,
        styles := [], styleRows := 0, labelIds := [], labelCatNos := [],
        labelNames := [], labelItems := 0, labelRows := 0,
        flushedBatches := w.flushedBatches ++ [w.artistRows + 1],
        writtenIds := w.writtenIds + (w.ids.length + 1),
        writtenStatuses := w.writtenStatuses + (w.statuses.length + 1),
        writtenTitles := w.writtenTitles + (w.titles.length + 1),
        writtenArtistRows := w.writtenArtistRows + (w.artistRows + 1),
        writtenGenreRows := w.writtenGenreRows + (w.genreRows + 1),
        writtenStyleRows := w.writtenStyleRows + (w.styleRows + 1),
        writtenLabelRows := w.writtenLabelRows + (w.labelRows + 1),
        releasesWritten := w.releasesWritten + 1,
        closeCount := w.closeCount } := by
  unfold feedRecord ReleaseBatchWriter.push_id ReleaseBatchWriter.push_status
    ReleaseBatchWriter.push_title ReleaseBatchWriter.write_release
    ReleaseBatchWriter.markRecordEnd
  rw [if_pos (by simp; omega)]
  rw [flush_full _ (by simp)
    (by simp [List.length_append]; omega)
    (by simp [List.length_append]; omega)
    (by simp [List.length_append]; omega)
    (by simp; omega) (by simp; omega) (by simp; omega)]
  simp [List.length_append]

theorem feedN_batch : feedN BATCH_SIZE = .ok afterFlush := by
  have h1 : feedN BATCH_SIZE = feedRecord (midBatch 9999) := by
    have hb : BATCH_SIZE = 9999 + 1 := rfl
    rw [hb, feedN_succ, feedN_mid 9999 (by decide)]
  refine h1.trans ((feedRecord_full (midBatch 9999) ?_ ?_ ?_ ?_ ?_ ?_ ?_ ?_).trans ?_)
  · simp only [midBatch, ReleaseBatchWriter.new]
    decide
  · simp only [midBatch, ReleaseBatchWriter.new, List.length_replicate]
  · simp only [midBatch, ReleaseBatchWriter.new, List.length_replicate]
  · simp only [midBatch, ReleaseBatchWriter.new, List.length_replicate]
  · simp only [midBatch, ReleaseBatchWriter.new]
  · simp only [midBatch, ReleaseBatchWriter.new]
  · simp only [midBatch, ReleaseBatchWriter.new]
  · simp only [midBatch, ReleaseBatchWriter.new]
  · simp only [midBatch, afterFlush, ReleaseBatchWriter.new, Except.ok.injEq,
      ReleaseBatchWriter.mk.injEq, List.length_replicate, List.nil_append]
    decide

/-- The writer state with one record pending after a full batch. -/
def afterOne : ReleaseBatchWriter :=
  { afterFlush with
    pending := 1, ids := [1], statuses := ["Accepted"], titles := ["T"],
    artistRows := 1, genreRows := 1, styleRows := 1, labelRows := 1,
    releasesWritten := BATCH_SIZE + 1 }

theorem feedN_batch_succ : feedN (BATCH_SIZE + 1) = .ok afterOne := by
  rw [feedN_succ, feedN_batch]
  simp only [feedRecord, ReleaseBatchWriter.push_id, ReleaseBatchWriter.push_status,
    ReleaseBatchWriter.push_title, ReleaseBatchWriter.write_release,
    ReleaseBatchWriter.markRecordEnd, afterFlush, ReleaseBatchWriter.new]
  rw [if_neg (by norm_num [BATCH_SIZE])]
  simp [afterOne, afterFlush, ReleaseBatchWriter.new]

/-! ### Claim theorems -/

/-- A one-record input that converts successfully. -/
def c1Tokens : List Event :=
  [.start "releases" [], .text "\n",
   .start "release" [("id", "7"), ("status", "Accepted")],
   .start "title" [], .text "A", .end_ "title",
   .end_ "release", .text "\n",
   .end_ "releases", .text "\n"]

/-- A two-record input in which record 1 has no `title` child and record
2 has two, so the per-record scalar counts are wrong after record 1 yet
re-align before the flush at close. -/
def c1TokensCancel : List Event :=
  [.start "releases" [], .text "\n",
   .start "release" [("id", "1"), ("status", "Accepted")],
   .end_ "release", .text "\n",
   .start "release" [("id", "2"), ("status", "Draft")],
   .start "title" [], .text "A", .end_ "title",
   .start "title" [], .text "B", .end_ "title",
   .end_ "release", .text "\n",
   .end_ "releases", .text "\n"]

/-- C1 (amended).  Row alignment, as the code actually guarantees it: on
every run that completes successfully, each of the seven top-level
columns has been written with exactly one row per record converted
(`releasesWritten` counts `write_release` calls), because Arrow's
`RecordBatch::try_new` aborts any flush whose columns disagree; and each
`write_release` appends the end-of-record marker of every list column
exactly once, regardless of how many child items the record produced.
The original claim's stronger per-record form — after record `i` every
column holds `i + 1` entries — does not hold for the scalar columns (see
the counterexample). -/
theorem c1_row_alignment :
    (∀ toks : List Event, (runMain toks).1 = .ok () →
      ((runMain toks).2.writtenIds = (runMain toks).2.releasesWritten ∧
       (runMain toks).2.writtenStatuses = (runMain toks).2.releasesWritten ∧
       (runMain toks).2.writtenTitles = (runMain toks).2.releasesWritten ∧
       (runMain toks).2.writtenArtistRows = (runMain toks).2.releasesWritten ∧
       (runMain toks).2.writtenGenreRows = (runMain toks).2.releasesWritten ∧
       (runMain toks).2.writtenStyleRows = (runMain toks).2.releasesWritten ∧
       (runMain toks).2.writtenLabelRows = (runMain toks).2.releasesWritten)) ∧
    (∀ w w1 : ReleaseBatchWriter, w.write_release = .ok w1 →
      w1.writtenArtistRows + w1.artistRows = w.writtenArtistRows + w.artistRows + 1 ∧
      w1.writtenGenreRows + w1.genreRows = w.writtenGenreRows + w.genreRows + 1 ∧
      w1.writtenStyleRows + w1.styleRows = w.writtenStyleRows + w.styleRows + 1 ∧
      w1.writtenLabelRows + w1.labelRows = w.writtenLabelRows + w.labelRows + 1) := by
  constructor
  · intro toks h
    cases toks with
    | nil => simp [runMain] at h
    | cons e rest =>
      cases hs : e.expect_start_of "releases" with
      | error err => simp [runMain, hs] at h
      | ok p =>
        cases rest with
        | nil => simp [runMain, hs] at h
        | cons t rest1 =>
          cases ht : t.expect_new_line with
          | error err => simp [runMain, hs, ht] at h
          | ok u =>
            have hrw : runMain (e :: t :: rest1) =
                finishRun (mainLoop (rest1.length + 1) rest1 ReleaseBatchWriter.new) := by
              simp [runMain, hs, ht]
            rw [hrw] at h ⊢
            obtain ⟨rest2, w1, w2, hr, hc, hw⟩ := finishRun_ok_inv _ h
            rw [hw]
            have ha1 : aligned w1 := mainLoop_aligned _ _ _ _ _ hr aligned_new
            exact close_written ha1 hc
  · intro w w1 h
    exact write_release_markers h

/-- Witness for C1: a concrete successful one-record run, and a concrete
`write_release` step, at which the theorem's two parts are applied. -/
theorem c1_row_alignment_witness :
    ((runMain c1Tokens).1 = .ok () ∧
      ((runMain c1Tokens).2.writtenIds = (runMain c1Tokens).2.releasesWritten ∧
       (runMain c1Tokens).2.writtenStatuses = (runMain c1Tokens).2.releasesWritten ∧
       (runMain c1Tokens).2.writtenTitles = (runMain c1Tokens).2.releasesWritten ∧
       (runMain c1Tokens).2.writtenArtistRows = (runMain c1Tokens).2.releasesWritten ∧
       (runMain c1Tokens).2.writtenGenreRows = (runMain c1Tokens).2.releasesWritten ∧
       (runMain c1Tokens).2.writtenStyleRows = (runMain c1Tokens).2.releasesWritten ∧
       (runMain c1Tokens).2.writtenLabelRows = (runMain c1Tokens).2.releasesWritten)) ∧
    (ReleaseBatchWriter.new.write_release = .ok ReleaseBatchWriter.new.markRecordEnd ∧
      (ReleaseBatchWriter.new.markRecordEnd.writtenArtistRows +
          ReleaseBatchWriter.new.markRecordEnd.artistRows =
        ReleaseBatchWriter.new.writtenArtistRows + ReleaseBatchWriter.new.artistRows + 1 ∧
       ReleaseBatchWriter.new.markRecordEnd.writtenGenreRows +
          ReleaseBatchWriter.new.markRecordEnd.genreRows =
        ReleaseBatchWriter.new.writtenGenreRows + ReleaseBatchWriter.new.genreRows + 1 ∧
       ReleaseBatchWriter.new.markRecordEnd.writtenStyleRows +
          ReleaseBatchWriter.new.markRecordEnd.styleRows =
        ReleaseBatchWriter.new.writtenStyleRows + ReleaseBatchWriter.new.styleRows + 1 ∧
       ReleaseBatchWriter.new.markRecordEnd.writtenLabelRows +
          ReleaseBatchWriter.new.markRecordEnd.labelRows =
        ReleaseBatchWriter.new.writtenLabelRows + ReleaseBatchWriter.new.labelRows + 1)) :=
  ⟨⟨by decide, c1_row_alignment.1 c1Tokens (by decide)⟩,
   ⟨by decide, c1_row_alignment.2 ReleaseBatchWriter.new
      ReleaseBatchWriter.new.markRecordEnd (by decide)⟩⟩

/-- Counterexample for C1 as stated: `c1TokensCancel` converts
successfully, yet after its first record was processed (attributes
pushed, empty body parsed, `write_release` called — the exact steps the
record loop performs) the `titles` column held 0 entries while `ids` and
every list column held 1, refuting "after processing record i each
column holds i+1 entries". -/
theorem c1_row_alignment_counterexample :
    (runMain c1TokensCancel).1 = .ok () ∧
    ((parse_release 3 [Event.end_ "release", Event.text "\n"]
        ((parse_release_attributes [("id", "1"), ("status", "Accepted")]
          ReleaseBatchWriter.new).2)).2.write_release.map
      (fun w => (w.titles.length, w.ids.length, w.artistRows, w.genreRows,
        w.styleRows, w.labelRows, w.releasesWritten))) = .ok (0, 1, 1, 1, 1, 1, 1) := by
  constructor
  · decide
  · rfl

/-- A record whose ignored `tracklist` subtree has a same-named
`tracklist` element nested at a deeper level, followed by a sibling
`title` element. -/
def c2TokensNested : List Event :=
  [.start "releases" [], .text "\n",
   .start "release" [("id", "1"), ("status", "Accepted")],
   .start "tracklist" [], .start "track" [], .start "tracklist" [],
   .end_ "tracklist", .end_ "track", .end_ "tracklist",
   .start "title" [], .text "T", .end_ "title",
   .end_ "release", .text "\n",
   .end_ "releases", .text "\n"]

/-- The same record with no same-named nesting inside the subtree. -/
def c2TokensPlain : List Event :=
  [.start "releases" [], .text "\n",
   .start "release" [("id", "1"), ("status", "Accepted")],
   .start "tracklist" [], .start "track" [], .end_ "track", .end_ "tracklist",
   .start "title" [], .text "T", .end_ "title",
   .end_ "release", .text "\n",
   .end_ "releases", .text "\n"]

/-- C2 (amended).  The Skip Parser consumes tokens up to the first end
tag bearing the subtree's name: when no descendant of the subtree shares
that name, this is the subtree's own closing tag and the remaining
siblings are handed back to the dispatcher — a whole record of this
shape converts successfully.  When a same-named descendant exists, the
scan stops at the inner closing tag instead (see the counterexample). -/
theorem c2_skip_correctness :
    (∀ (name : String) (inner : List Event),
      (∀ e ∈ inner, e.is_end_of name = false) →
      ∀ rest : List Event,
        skipPast (inner.length + 1) name (inner ++ Event.end_ name :: rest) = .ok rest) ∧
    (runMain c2TokensPlain).1 = .ok () := by
  constructor
  · intro name inner
    induction inner with
    | nil =>
      intro h rest
      simp [skipPast, Event.is_end_of]
    | cons x xs ih =>
      intro h rest
      have hx : x.is_end_of name = false := h x (by simp)
      have ihr := ih (fun e he => h e (by simp [he])) rest
      simp only [List.cons_append, List.length_cons, skipPast, hx]
      exact ihr
  · decide

/-- Witness for C2: the skip lemma applied to a concrete `tracklist`
subtree with no same-named descendant. -/
theorem c2_skip_correctness_witness :
    (∀ e ∈ ([Event.start "track" [], Event.end_ "track"] : List Event),
      e.is_end_of "tracklist" = false) ∧
    skipPast 3 "tracklist"
        [Event.start "track" [], Event.end_ "track", Event.end_ "tracklist",
         Event.text "x"] =
      .ok [Event.text "x"] :=
  ⟨by decide,
   c2_skip_correctness.1 "tracklist" [Event.start "track" [], Event.end_ "track"]
     (by decide) [Event.text "x"]⟩

/-- Counterexample for C2 as stated: with a same-named `tracklist` nested
one level deeper, the skip scan returns at the inner closing tag (second
conjunct), so the record's remaining tokens are misinterpreted and the
conversion aborts with `ExpectedStart` instead of resuming correctly
(first conjunct). -/
theorem c2_skip_correctness_counterexample :
    (runMain c2TokensNested).1 = .error .expectedStart ∧
    parse_tracklist 7
        [Event.start "track" [], Event.start "tracklist" [], Event.end_ "tracklist",
         Event.end_ "track", Event.end_ "tracklist", Event.start "title" []] =
      .ok [Event.end_ "track", Event.end_ "tracklist", Event.start "title" []] := by
  constructor
  · decide
  · decide

/-- A run that reaches the container's closing tag but then violates the
trailing-newline assertion. -/
def c3TokensTrailingJunk : List Event :=
  [.start "releases" [], .text "\n", .end_ "releases", .start "x" []]

/-- A zero-record run that completes successfully. -/
def c3TokensEmpty : List Event :=
  [.start "releases" [], .text "\n", .end_ "releases", .text "\n"]

/-- C3 (amended).  The record loop never invokes close, so any run that
fails before the container's closing tag leaves the file unfinalized;
a successful run invokes close exactly once; and a run whose record loop
terminates normally and whose final flush succeeds has invoked close
exactly once even if the trailing newline or end-of-input assertion then
fails — close happens before those two assertions, not after. -/
theorem c3_close_on_success :
    (∀ (fuel : Nat) (toks : List Event) (w : ReleaseBatchWriter),
      ((mainLoop fuel toks w).2).closeCount = w.closeCount) ∧
    (∀ toks : List Event, (runMain toks).1 = .ok () →
      (runMain toks).2.closeCount = 1) ∧
    (∀ (rest rest2 : List Event) (w1 w2 : ReleaseBatchWriter),
      mainLoop (rest.length + 1) rest ReleaseBatchWriter.new = (.ok rest2, w1) →
      w1.close = .ok w2 →
      (runMain (.start "releases" [] :: .text "\n" :: rest)).2.closeCount = 1) := by
  refine ⟨mainLoop_closeCount, ?_, ?_⟩
  · intro toks h
    cases toks with
    | nil => simp [runMain] at h
    | cons e rest =>
      cases hs : e.expect_start_of "releases" with
      | error err => simp [runMain, hs] at h
      | ok p =>
        cases rest with
        | nil => simp [runMain, hs] at h
        | cons t rest1 =>
          cases ht : t.expect_new_line with
          | error err => simp [runMain, hs, ht] at h
          | ok u =>
            have hrw : runMain (e :: t :: rest1) =
                finishRun (mainLoop (rest1.length + 1) rest1 ReleaseBatchWriter.new) := by
              simp [runMain, hs, ht]
            rw [hrw] at h ⊢
            obtain ⟨rest2, w1, w2, hr, hc, hw⟩ := finishRun_ok_inv _ h
            rw [hw]
            have h0 : w1.closeCount = 0 := by
              have hm := mainLoop_closeCount (rest1.length + 1) rest1 ReleaseBatchWriter.new
              rw [hr] at hm
              exact hm
            rw [close_closeCount hc, h0]
  · intro rest rest2 w1 w2 h1 h2
    have hrw : runMain (.start "releases" [] :: .text "\n" :: rest) =
        finishRun (mainLoop (rest.length + 1) rest ReleaseBatchWriter.new) := by
      simp [runMain, Event.expect_start_of, Event.expect_new_line]
    rw [hrw, h1, finishRun_writer_of_close h2]
    have h0 : w1.closeCount = 0 := by
      have hm := mainLoop_closeCount (rest.length + 1) rest ReleaseBatchWriter.new
      rw [h1] at hm
      exact hm
    rw [close_closeCount h2, h0]

/-- Witness for C3: the loop-preservation part at a concrete state, the
success part at a concrete run, and the trailing-assertions part at a
concrete zero-record loop. -/
theorem c3_close_on_success_witness :
    ((mainLoop 1 [] ReleaseBatchWriter.new).2).closeCount =
      ReleaseBatchWriter.new.closeCount ∧
    ((runMain c3TokensEmpty).1 = .ok () ∧ (runMain c3TokensEmpty).2.closeCount = 1) ∧
    (mainLoop 2 [Event.end_ "releases"] ReleaseBatchWriter.new =
        (.ok [], ReleaseBatchWriter.new) ∧
      ReleaseBatchWriter.new.close =
        .ok { ReleaseBatchWriter.new with closeCount := 1 } ∧
      (runMain [Event.start "releases" [], Event.text "\n",
        Event.end_ "releases"]).2.closeCount = 1) :=
  ⟨c3_close_on_success.1 1 [] ReleaseBatchWriter.new,
   ⟨by decide, c3_close_on_success.2.1 c3TokensEmpty (by decide)⟩,
   ⟨by decide, by decide,
    c3_close_on_success.2.2 [Event.end_ "releases"] [] ReleaseBatchWriter.new
      { ReleaseBatchWriter.new with closeCount := 1 } (by decide) (by decide)⟩⟩

/-- Counterexample for C3 as stated: this run ends in a propagated
`ExpectedNewline` failure, yet close has been invoked (the source calls
`writer.close()` before asserting the trailing newline and end-of-input),
refuting "on every run that ends in a propagated failure, close is never
invoked". -/
theorem c3_close_on_success_counterexample :
    (runMain c3TokensTrailingJunk).1 = .error .expectedNewline ∧
    (runMain c3TokensTrailingJunk).2.closeCount = 1 := by
  constructor
  · decide
  · decide

/-- C4 (confirmed).  Feeding exactly `BATCH_SIZE` complete records
triggers exactly one automatic flush of `BATCH_SIZE` rows with zero
pending afterwards; `BATCH_SIZE + 1` records give that same single flush
plus one pending row, which is materialized (as a second, one-row batch)
only when close is called. -/
theorem c4_batch_boundary :
    (feedN BATCH_SIZE).map (fun w => (w.flushedBatches, w.pending)) =
      .ok ([BATCH_SIZE], 0) ∧
    (feedN (BATCH_SIZE + 1)).map (fun w => (w.flushedBatches, w.pending)) =
      .ok ([BATCH_SIZE], 1) ∧
    ((feedN (BATCH_SIZE + 1)).bind ReleaseBatchWriter.close).map
      (fun w => (w.flushedBatches, w.pending)) = .ok ([BATCH_SIZE, 1], 0) := by
  refine ⟨?_, ?_, ?_⟩
  · rw [feedN_batch]
    rfl
  · rw [feedN_batch_succ]
    rfl
  · rw [feedN_batch_succ]
    decide

/-- The run of the `&amp;` unescaper on a list without occurrences is the
identity, for every fuel (the non-generic half of the idempotence
discussion). -/
theorem replaceAmpAux_of_not_contains :
    ∀ (n : Nat) (l : List Char), containsAmpChars l = false →
      replaceAmpAux n l = l := by
  intro n
  induction n with
  | zero => intro l h2; rfl
  | succ n ih =>
    intro l h2
    cases l with
    | nil => rfl
    | cons c rest =>
      simp only [containsAmpChars, Bool.or_eq_false_iff, decide_eq_false_iff_not] at h2
      rw [replaceAmpAux, if_neg h2.1, ih rest h2.2]

/-- C5 (confirmed).  Null preservation for artist `anv`/`join`: a present
but empty element (its start tag immediately followed by its end tag)
appends an explicit null to the struct member column, while an element
carrying text appends the text as a non-null value; `id`/`name` are
never appended as null by any code path (no null-push exists for them in
the writer). -/
theorem c5_null_preservation :
    (∀ (fuel : Nat) (rest : List Event) (w : ReleaseBatchWriter)
        (a : List (String × String)),
      parse_artist (fuel + 1) (.start "anv" a :: .end_ "anv" :: rest) w =
        parse_artist fuel rest w.push_artist_anv_null) ∧
    (∀ w : ReleaseBatchWriter, w.push_artist_anv_null.artistAnvs = w.artistAnvs ++ [none]) ∧
    (∀ (fuel : Nat) (rest : List Event) (w : ReleaseBatchWriter)
        (a : List (String × String)) (s : String),
      parse_artist (fuel + 1) (.start "anv" a :: .text s :: .end_ "anv" :: rest) w =
        parse_artist fuel rest (w.push_artist_anv s)) ∧
    (∀ (w : ReleaseBatchWriter) (s : String),
      (w.push_artist_anv s).artistAnvs = w.artistAnvs ++ [some s]) ∧
    (∀ (fuel : Nat) (rest : List Event) (w : ReleaseBatchWriter)
        (a : List (String × String)),
      parse_artist (fuel + 1) (.start "join" a :: .end_ "join" :: rest) w =
        parse_artist fuel rest w.push_artist_join_null) ∧
    (∀ w : ReleaseBatchWriter,
      w.push_artist_join_null.artistJoins = w.artistJoins ++ [none]) ∧
    (∀ (fuel : Nat) (rest : List Event) (w : ReleaseBatchWriter)
        (a : List (String × String)) (s : String),
      parse_artist (fuel + 1) (.start "join" a :: .text s :: .end_ "join" :: rest) w =
        parse_artist fuel rest (w.push_artist_join s)) ∧
    (∀ (w : ReleaseBatchWriter) (s : String),
      (w.push_artist_join s).artistJoins = w.artistJoins ++ [some s]) :=
  ⟨fun _ _ _ _ => rfl, fun _ => rfl, fun _ _ _ _ _ => rfl, fun _ _ => rfl,
   fun _ _ _ _ => rfl, fun _ => rfl, fun _ _ _ _ _ => rfl, fun _ _ => rfl⟩

/-- C6 (amended).  Every genre and style text value is stored with each
occurrence of the escaped ampersand replaced ("Electronic &amp; Dance"
becomes "Electronic & Dance"); the unescaping is a no-op on a second
application whenever the first application's result contains no further
escaped ampersand — but that premise can fail, so the unescaping is not
idempotent in general (see the counterexample). -/
theorem c6_entity_unescaping :
    (∀ (fuel : Nat) (rest : List Event) (w : ReleaseBatchWriter)
        (a : List (String × String)) (s : String),
      parse_genres (fuel + 1) (.start "genre" a :: .text s :: .end_ "genre" :: rest) w =
        parse_genres fuel rest (w.push_genre (replaceAmp s))) ∧
    (∀ (fuel : Nat) (rest : List Event) (w : ReleaseBatchWriter)
        (a : List (String × String)) (s : String),
      parse_styles (fuel + 1) (.start "style" a :: .text s :: .end_ "style" :: rest) w =
        parse_styles fuel rest (w.push_style (replaceAmp s))) ∧
    (∀ (w : ReleaseBatchWriter) (s : String), (w.push_genre s).genres = w.genres ++ [s]) ∧
    (∀ (w : ReleaseBatchWriter) (s : String), (w.push_style s).styles = w.styles ++ [s]) ∧
    replaceAmp "Electronic &amp; Dance" = "Electronic & Dance" ∧
    (∀ s : String, containsAmpChars (replaceAmp s).data = false →
      replaceAmp (replaceAmp s) = replaceAmp s) := by
  refine ⟨fun _ _ _ _ _ => rfl, fun _ _ _ _ _ => rfl, fun _ _ => rfl, fun _ _ => rfl,
    by decide, ?_⟩
  intro s h
  have h2 := replaceAmpAux_of_not_contains (replaceAmp s).data.length _ h
  calc replaceAmp (replaceAmp s)
      = ⟨replaceAmpAux (replaceAmp s).data.length (replaceAmp s).data⟩ := rfl
    _ = ⟨(replaceAmp s).data⟩ := by rw [h2]
    _ = replaceAmp s := rfl

/-- Witness for C6: the conditional-idempotence part applied to the
spec's example value, whose unescaped form has no residual escape. -/
theorem c6_entity_unescaping_witness :
    containsAmpChars (replaceAmp "Electronic &amp; Dance").data = false ∧
    replaceAmp (replaceAmp "Electronic &amp; Dance") =
      replaceAmp "Electronic &amp; Dance" :=
  ⟨by decide, c6_entity_unescaping.2.2.2.2.2 "Electronic &amp; Dance" (by decide)⟩

/-- Counterexample for C6 as stated: unescaping "&amp;amp;" yields
"&amp;", which a second application turns into "&", so the unescaping is
not idempotent. -/
theorem c6_entity_unescaping_counterexample :
    replaceAmp (replaceAmp "&amp;amp;") ≠ replaceAmp "&amp;amp;" := by decide

/-- C7 (confirmed).  A record-level child start tag whose name is not in
the recognized list, and a child start tag inside an artist whose name
is not one of the six artist fields, both abort the conversion
immediately (the source hits `panic!`); there is no soft error path. -/
theorem c7_unknown_element_fatal :
    (∀ (n : String) (attrs : List (String × String)),
      n ∉ (["title", "genres", "styles", "images", "artists", "extraartists",
        "labels", "formats", "country", "data_quality", "master_id", "tracklist",
        "videos", "released", "companies", "notes", "identifiers"] : List String) →
      ∀ (fuel : Nat) (rest : List Event) (w : ReleaseBatchWriter),
        parse_release (fuel + 1) (.start n attrs :: rest) w = (.error .panicked, w)) ∧
    (∀ (n : String) (attrs : List (String × String)),
      n ∉ (["id", "name", "anv", "join", "role", "tracks"] : List String) →
      ∀ (fuel : Nat) (rest : List Event) (w : ReleaseBatchWriter),
        parse_artist (fuel + 1) (.start n attrs :: rest) w = (.error .panicked, w)) := by
  constructor
  · intro n attrs hn fuel rest w
    have hcc : parse_release_child n rest w = (.error .panicked, w) := by
      simp only [parse_release_child]
      split
      all_goals first | rfl | simp_all
    show bindParse (parse_release_child n rest w) (parse_release fuel) =
      (.error .panicked, w)
    rw [hcc]
    rfl
  · intro n attrs hn fuel rest w
    have hid : ¬ n = "id" := fun h => hn (by simp [h])
    have hname : ¬ n = "name" := fun h => hn (by simp [h])
    have hanv : ¬ n = "anv" := fun h => hn (by simp [h])
    have hjoin : ¬ n = "join" := fun h => hn (by simp [h])
    have hrole : ¬ n = "role" := fun h => hn (by simp [h])
    have htracks : ¬ n = "tracks" := fun h => hn (by simp [h])
    simp only [parse_artist]
    simp [Event.is_end_of, Event.expect_start, hid, hname, hanv, hjoin, hrole, htracks]

/-- Witness for C7: both parts applied to a concrete unrecognized
element name. -/
theorem c7_unknown_element_fatal_witness :
    ("bogus" ∉ (["title", "genres", "styles", "images", "artists", "extraartists",
        "labels", "formats", "country", "data_quality", "master_id", "tracklist",
        "videos", "released", "companies", "notes", "identifiers"] : List String) ∧
      parse_release 1 [Event.start "bogus" []] ReleaseBatchWriter.new =
        (.error .panicked, ReleaseBatchWriter.new)) ∧
    ("bogus" ∉ (["id", "name", "anv", "join", "role", "tracks"] : List String) ∧
      parse_artist 1 [Event.start "bogus" []] ReleaseBatchWriter.new =
        (.error .panicked, ReleaseBatchWriter.new)) :=
  ⟨⟨by decide, c7_unknown_element_fatal.1 "bogus" [] (by decide) 0 []
      ReleaseBatchWriter.new⟩,
   ⟨by decide, c7_unknown_element_fatal.2 "bogus" [] (by decide) 0 []
      ReleaseBatchWriter.new⟩⟩

theorem expect_new_line_of_ne {e : Event} (h : e ≠ .text "\n") :
    e.expect_new_line = .error .expectedNewline := by
  cases e with
  | text s =>
    simp only [Event.expect_new_line]
    rw [if_neg (fun hs => h (by rw [hs]))]
  | start n a => rfl
  | end_ n => rfl
  | empty n a => rfl
  | eof => rfl

theorem expect_new_line_nl : (Event.text "\n").expect_new_line = .ok () := rfl

theorem expect_eof_of_ne {e : Event} (h : e ≠ .eof) :
    e.expect_eof = .error .expectedEof := by
  cases e with
  | text s => rfl
  | start n a => rfl
  | end_ n => rfl
  | empty n a => rfl
  | eof => exact absurd rfl h

/-- C8 (confirmed).  The newline separators are mandatory: the assertion
accepts exactly the text token "\n"; after the container's opening tag,
after each record's closing tag, and after the container's closing tag,
any other token fails the run with `ExpectedNewline` (and the final
position additionally asserts end-of-input, failing with `ExpectedEof`
on any further token). -/
theorem c8_newline_separators :
    (∀ e : Event, e.expect_new_line = .ok () ↔ e = .text "\n") ∧
    (∀ e : Event, e ≠ .text "\n" → e.expect_new_line = .error .expectedNewline) ∧
    (∀ (attrs : List (String × String)) (t : Event) (rest : List Event),
      t ≠ .text "\n" →
      runMain (.start "releases" attrs :: t :: rest) =
        (.error .expectedNewline, ReleaseBatchWriter.new)) ∧
    (∀ (fuel : Nat) (t : Event) (rest : List Event) (w : ReleaseBatchWriter),
      t ≠ .text "\n" →
      parse_release (fuel + 1) (.end_ "release" :: t :: rest) w =
        (.error .expectedNewline, w)) ∧
    (∀ (t : Event) (rest : List Event), t ≠ .text "\n" →
      (runMain ([.start "releases" [], .text "\n", .end_ "releases"] ++ t :: rest)).1 =
        .error .expectedNewline) ∧
    (∀ (u : Event) (rest : List Event), u ≠ .eof →
      (runMain ([.start "releases" [], .text "\n", .end_ "releases", .text "\n"] ++
          u :: rest)).1 =
        .error .expectedEof) := by
  refine ⟨?_, fun e h => expect_new_line_of_ne h, ?_, ?_, ?_, ?_⟩
  · intro e
    cases e with
    | text s =>
      simp only [Event.expect_new_line]
      by_cases hs : s = "\n"
      · simp [hs]
      · simp [hs]
    | start n a => simp [Event.expect_new_line]
    | end_ n => simp [Event.expect_new_line]
    | empty n a => simp [Event.expect_new_line]
    | eof => simp [Event.expect_new_line]
  · intro attrs t rest h
    simp [runMain, Event.expect_start_of, expect_new_line_of_ne h]
  · intro fuel t rest w h
    simp [parse_release, Event.is_end_of, expect_new_line_of_ne h]
  · intro t rest h
    simp [runMain, mainLoop, finishRun, ReleaseBatchWriter.close,
      ReleaseBatchWriter.flush, ReleaseBatchWriter.new, Event.expect_start_of,
      Event.is_end_of, expect_new_line_nl, expect_new_line_of_ne h]
  · intro u rest h
    simp [runMain, mainLoop, finishRun, ReleaseBatchWriter.close,
      ReleaseBatchWriter.flush, ReleaseBatchWriter.new, Event.expect_start_of,
      Event.is_end_of, expect_new_line_nl, expect_eof_of_ne h]

/-- Witness for C8: each conditional part applied at a concrete
offending token. -/
theorem c8_newline_separators_witness :
    ((Event.start "x" [] ≠ Event.text "\n") ∧
      (Event.start "x" []).expect_new_line = .error .expectedNewline) ∧
    runMain [Event.start "releases" [], Event.start "x" []] =
      (.error .expectedNewline, ReleaseBatchWriter.new) ∧
    parse_release 1 [Event.end_ "release", Event.start "x" []] ReleaseBatchWriter.new =
      (.error .expectedNewline, ReleaseBatchWriter.new) ∧
    (runMain [Event.start "releases" [], Event.text "\n", Event.end_ "releases",
        Event.start "x" []]).1 = .error .expectedNewline ∧
    (runMain [Event.start "releases" [], Event.text "\n", Event.end_ "releases",
        Event.text "\n", Event.start "x" []]).1 = .error .expectedEof :=
  ⟨⟨by decide, c8_newline_separators.2.1 (Event.start "x" []) (by decide)⟩,
   c8_newline_separators.2.2.1 [] (Event.start "x" []) [] (by decide),
   c8_newline_separators.2.2.2.1 0 (Event.start "x" []) [] ReleaseBatchWriter.new
     (by decide),
   c8_newline_separators.2.2.2.2.1 (Event.start "x" []) [] (by decide),
   c8_newline_separators.2.2.2.2.2 (Event.start "x" []) [] (by decide)⟩

/-- C9 (amended).  An empty `role` or `tracks` child inside an artist is
consumed without appending anything to any column and artist parsing
continues with the next child; but a `role`/`tracks` element that
carries any content aborts the conversion with `ExpectedEndOf` — the
parser reads one token and requires it to be the element's closing tag,
so only empty content is actually "read and discarded". -/
theorem c9_role_tracks_discarded :
    (∀ (fuel : Nat) (rest : List Event) (w : ReleaseBatchWriter)
        (a : List (String × String)),
      parse_artist (fuel + 1) (.start "role" a :: .end_ "role" :: rest) w =
        parse_artist fuel rest w) ∧
    (∀ (fuel : Nat) (rest : List Event) (w : ReleaseBatchWriter)
        (a : List (String × String)),
      parse_artist (fuel + 1) (.start "tracks" a :: .end_ "tracks" :: rest) w =
        parse_artist fuel rest w) ∧
    (∀ (fuel : Nat) (rest : List Event) (w : ReleaseBatchWriter)
        (a : List (String × String)) (s : String),
      parse_artist (fuel + 1) (.start "role" a :: .text s :: rest) w =
        (.error (.expectedEndOf "role"), w)) ∧
    (∀ (fuel : Nat) (rest : List Event) (w : ReleaseBatchWriter)
        (a : List (String × String)) (s : String),
      parse_artist (fuel + 1) (.start "tracks" a :: .text s :: rest) w =
        (.error (.expectedEndOf "tracks"), w)) :=
  ⟨fun _ _ _ _ => rfl, fun _ _ _ _ => rfl, fun _ _ _ _ _ => rfl, fun _ _ _ _ _ => rfl⟩

/-- Counterexample for C9 as stated: a `role` element whose content is
the text "Producer" is not read-and-discarded; parsing aborts with
`ExpectedEndOf role` instead of continuing with the next child. -/
theorem c9_role_tracks_discarded_counterexample :
    parse_artist 3 [Event.start "role" [], Event.text "Producer", Event.end_ "role"]
      ReleaseBatchWriter.new =
      (.error (.expectedEndOf "role"), ReleaseBatchWriter.new) := by decide

/-- A run whose single record holds an artist with a self-closing
`anv` element. -/
def c10Tokens : List Event :=
  [.start "releases" [], .text "\n",
   .start "release" [("id", "1"), ("status", "Accepted")],
   .start "artists" [], .start "artist" [], .empty "anv" [],
   .end_ "artist", .end_ "artists",
   .end_ "release", .text "\n",
   .end_ "releases", .text "\n"]

/-- C10 (confirmed).  Inside an artist, a self-closing child element is
not treated as a null value: the artist parser accepts only start tags
for children, so any self-closing token (in particular an empty-element
`anv` or `join`) makes `parse_artist` fail with `ExpectedStart`, and the
conversion of such a run aborts with that error. -/
theorem c10_self_closing_rejected :
    (∀ (fuel : Nat) (name : String) (attrs : List (String × String))
        (rest : List Event) (w : ReleaseBatchWriter),
      parse_artist (fuel + 1) (.empty name attrs :: rest) w =
        (.error .expectedStart, w)) ∧
    (runMain c10Tokens).1 = .error .expectedStart := by
  refine ⟨fun _ _ _ _ _ => rfl, ?_⟩
  decide

end Discogs
